import Mathlib

/-!
Verification of the Performance-Differential & Wager-Sizing Engine of the
nfl-playoff-predictor repository.

All floating-point arithmetic of the source is embedded over `ℚ` (exact
rationals); the logistic win-probability transform, which uses `exp`, is
embedded over `ℝ`.  Python dictionaries that may lack keys are embedded as
`Option` values; a Python dict that is "falsy" (absent or empty) is the
`none` case of the outer `Option`.
-/

namespace NFLPredictor

/-! ## Configuration constants (src/config.py) -/

namespace EPAConfig

def EPA_DOMINANT_MODE : Bool := true

def GLOBAL_NON_EPA_CAP : ℚ := 60/1000

def CAP_REST_EPA : ℚ := 35/1000

def CAP_INJURY_PER_TEAM_EPA : ℚ := 30/1000

def CAP_FAN_NOISE_EPA : ℚ := 9/1000

def CAP_WEATHER_EPA : ℚ := 30/1000

end EPAConfig

namespace BettingConfig

def HOME_FIELD_EPA : ℚ := 29/1000

def ALTITUDE_ADVANTAGE_EPA : ℚ := 18/1000

def FAN_NOISE_BASE_EPA : ℚ := 4/1000

def FAN_NOISE_LOUD_STADIUM_BONUS_EPA : ℚ := 3/1000

def FAN_NOISE_DOME_BONUS_EPA : ℚ := 2/1000

def DIVISION_RIVALRY_COMPRESSION : ℚ := 18/100

def KELLY_FRACTION : ℚ := 1/4

def MAX_BET_SIZE_PCT : ℚ := 5/100

def KEY_NUMBERS : List ℚ := [3, 7, 10, 6, 4, 14]

end BettingConfig

namespace TravelConfig

/-- `TravelConfig.TZ_DIFF_PENALTY` table; `.get(diff, 0.0)` yields 0 off-table. -/
def TZ_DIFF_PENALTY (diff : ℕ) : ℚ :=
  match diff with
  | 0 => 0
  | 1 => -7/1000
  | 2 => -12/1000
  | 3 => -18/1000
  | _ => 0

def SHORT_WEEK_MULTIPLIER : ℚ := 3/2

def MAX_PENALTY_EPA : ℚ := -27/1000

end TravelConfig

/-! ## Kelly calculator (src/utils/kelly.py, `KellyCalculator`) -/

/-- `KellyCalculator.american_to_decimal`. -/
def americanToDecimal (odds : ℤ) : ℚ :=
  if odds > 0 then ((odds : ℚ) / 100) + 1 else (100 / |(odds : ℚ)|) + 1

/-- `KellyCalculator.calculate_implied_prob`. -/
def calculateImpliedProb (odds : ℤ) : ℚ :=
  if odds > 0 then 100 / ((odds : ℚ) + 100)
  else |(odds : ℚ)| / (|(odds : ℚ)| + 100)

/-- `KellyCalculator.full_kelly`: `(b·p − q)/b`, floored at 0. -/
def fullKelly (winProb : ℚ) (odds : ℤ) : ℚ :=
  let decimalOdds := americanToDecimal odds
  let b := decimalOdds - 1
  let p := winProb
  let q := 1 - p
  max 0 ((b * p - q) / b)

/-- The `fractional_kelly_pct` field computed by
`KellyCalculator.calculate_bet_size`: full Kelly times the fraction used
(default `BettingConfig.KELLY_FRACTION`).  No maximum-bet cap is applied on
this path. -/
def fractionalKellyPct (winProb : ℚ) (odds : ℤ) (fraction : ℚ) : ℚ :=
  fullKelly winProb odds * fraction

/-! ## Betting signal generator (src/core/betting_signals.py) -/

inductive Confidence where
  | HIGH
  | MEDIUM
  | LOW
deriving DecidableEq, Repr

/-- `BetSignal` enum; the source constructor `LEAN` is rendered `LEAN_BET`. -/
inductive BetSignal where
  | STRONG_BET
  | MEDIUM_BET
  | LEAN_BET
  | AVOID
  | NO_PLAY
deriving DecidableEq, Repr

/-- `BettingSignalGenerator._crosses_key_number`: iterates over the first two
key numbers (3 and 7) and fires if either two-sided test passes. -/
def crossesKeyNumber (marketSpread edgePoints : ℚ) : Bool :=
  (BettingConfig.KEY_NUMBERS.take 2).any fun key =>
    (decide (|marketSpread| ≤ key) && decide (key ≤ |marketSpread| + edgePoints)) ||
    (decide (|marketSpread| ≥ key) && decide (key ≥ |marketSpread| - edgePoints))

/-- Edge in points computed by
`BettingSignalGenerator.generate_recommendation`:
`abs(model_spread - market_spread)`. -/
def edgePoints (modelSpread marketSpread : ℚ) : ℚ :=
  |modelSpread - marketSpread|

/-- `BettingSignalGenerator._determine_signal`. -/
def determineSignal (edge : ℚ) (modelConfidence : Confidence)
    (marketSpread : ℚ) (isPlayoff : Bool) : BetSignal :=
  let playoffMultiplier : ℚ := if isPlayoff then 12/10 else 1
  let crossesKey := crossesKeyNumber marketSpread edge
  if edge ≥ 4 * playoffMultiplier ∧ modelConfidence = .HIGH then
    .STRONG_BET
  else if edge ≥ 3 * playoffMultiplier ∧
      (modelConfidence = .HIGH ∨ modelConfidence = .MEDIUM) then
    .STRONG_BET
  else if edge ≥ (25/10) * playoffMultiplier then
    .MEDIUM_BET
  else if edge ≥ (15/10) * playoffMultiplier ∧ ¬crossesKey then
    .LEAN_BET
  else if edge ≥ 1 then
    .LEAN_BET
  else
    .NO_PLAY

/-- The uncapped Kelly value computed inside
`BettingSignalGenerator._calculate_kelly` (before the fractional multiplier,
key-number reduction, cap and floor). -/
def signalKellyRaw (modelProb : ℚ) (marketOdds : ℤ) : ℚ :=
  let decimalOdds :=
    if marketOdds < 0 then 1 + (100 / |(marketOdds : ℚ)|)
    else 1 + ((marketOdds : ℚ) / 100)
  let b := decimalOdds - 1
  let p := modelProb
  let q := 1 - p
  (b * p - q) / b

/-- `BettingSignalGenerator._calculate_kelly`.  Modelled from the spec:
`MarketConfig` (imported by `betting_signals.py`) is not defined under
`src/`; the spec describes `MarketConfig.REDUCE_KELLY_NEAR_KEY` only as "a
dedicated reduction factor (< 1)", so the factor is passed as the explicit
parameter `reduceKellyNearKey`.  Everything else follows the source. -/
def calculateKelly (modelProb : ℚ) (marketOdds : ℤ)
    (edge marketSpread reduceKellyNearKey : ℚ) : ℚ :=
  let kelly := signalKellyRaw modelProb marketOdds
  let fractionalKelly := kelly * BettingConfig.KELLY_FRACTION
  let fractionalKelly :=
    if crossesKeyNumber marketSpread edge then
      fractionalKelly * reduceKellyNearKey
    else fractionalKelly
  let fractionalKelly := min fractionalKelly BettingConfig.MAX_BET_SIZE_PCT
  max 0 fractionalKelly

/-- Interval test written in the spec for the key-number check: the interval
`[market_spread, market_spread + edge_points]` (or its mirror for negative
spreads) contains 3 or 7.  Stated from the spec for comparison with
`crossesKeyNumber`. -/
def specIntervalCrossesKeyNumber (marketSpread edge : ℚ) : Bool :=
  (BettingConfig.KEY_NUMBERS.take 2).any fun key =>
    decide (|marketSpread| ≤ key) && decide (key ≤ |marketSpread| + edge)

/-! ## Teams (src/config.py `TeamsConfig`, src/utils/validators.py,
src/utils/travel.py) -/

/-- The 32 team abbreviations of `TeamsConfig.ALL_TEAMS`. -/
inductive Team where
  | BUF | MIA | NE | NYJ
  | BAL | CIN | CLE | PIT
  | HOU | IND | JAX | TEN
  | DEN | KC | LV | LAC
  | DAL | NYG | PHI | WAS
  | CHI | DET | GB | MIN
  | ATL | CAR | NO | TB
  | ARI | LA | SF | SEA
deriving DecidableEq, Repr

inductive Division where
  | AFC_EAST | AFC_NORTH | AFC_SOUTH | AFC_WEST
  | NFC_EAST | NFC_NORTH | NFC_SOUTH | NFC_WEST
deriving DecidableEq, Repr

/-- `TeamsConfig.DIVISIONS` membership. -/
def divisionOf (t : Team) : Division :=
  match t with
  | .BUF | .MIA | .NE | .NYJ => .AFC_EAST
  | .BAL | .CIN | .CLE | .PIT => .AFC_NORTH
  | .HOU | .IND | .JAX | .TEN => .AFC_SOUTH
  | .DEN | .KC | .LV | .LAC => .AFC_WEST
  | .DAL | .NYG | .PHI | .WAS => .NFC_EAST
  | .CHI | .DET | .GB | .MIN => .NFC_NORTH
  | .ATL | .CAR | .NO | .TB => .NFC_SOUTH
  | .ARI | .LA | .SF | .SEA => .NFC_WEST

/-- `utils.validators.are_division_rivals`: both teams in one division. -/
def areDivisionRivals (t1 t2 : Team) : Bool :=
  divisionOf t1 = divisionOf t2

inductive TimeZone where
  | ET | CT | MT | PT
deriving DecidableEq, Repr

/-- `TeamsConfig.TEAM_TIMEZONES`. -/
def teamTimeZone (t : Team) : TimeZone :=
  match t with
  | .BUF | .MIA | .NE | .NYJ => .ET
  | .BAL | .CIN | .CLE | .PIT => .ET
  | .HOU => .CT
  | .IND | .JAX => .ET
  | .TEN => .CT
  | .DEN => .MT
  | .KC => .CT
  | .LV | .LAC => .PT
  | .DAL => .CT
  | .NYG | .PHI | .WAS => .ET
  | .CHI => .CT
  | .DET => .ET
  | .GB | .MIN => .CT
  | .ATL | .CAR => .ET
  | .NO => .CT
  | .TB => .ET
  | .ARI => .MT
  | .LA | .SF | .SEA => .PT

/-- `utils.travel._TZ_ORDER`. -/
def tzOrder (tz : TimeZone) : ℤ :=
  match tz with
  | .ET => 0
  | .CT => 1
  | .MT => 2
  | .PT => 3

/-- `utils.travel.timezone_diff`: absolute timezone difference in zones. -/
def timezoneDiff (home away : Team) : ℕ :=
  (tzOrder (teamTimeZone home) - tzOrder (teamTimeZone away)).natAbs

/-- `TeamsConfig.ALTITUDE_TEAMS` membership (`['DEN']`). -/
def isAltitudeTeam (t : Team) : Bool :=
  match t with
  | .DEN => true
  | _ => false

/-- `TeamsConfig.LOUD_STADIUMS` membership. -/
def isLoudStadium (t : Team) : Bool :=
  match t with
  | .SEA | .KC | .NO | .BUF | .PHI | .GB | .DAL | .MIN => true
  | _ => false

/-- `TeamsConfig.DOME_TEAMS` membership. -/
def isDomeTeam (t : Team) : Bool :=
  match t with
  | .ATL | .DET | .NO | .MIN | .LV | .LA | .ARI => true
  | _ => false

/-- `utils.travel.compute_travel_penalty`. -/
def computeTravelPenalty (home away : Team) (awayRestDays : Option ℤ) : ℚ :=
  let base := TravelConfig.TZ_DIFF_PENALTY (timezoneDiff home away)
  match awayRestDays with
  | some r => if r < 7 then base * TravelConfig.SHORT_WEEK_MULTIPLIER else base
  | none => base

/-- `utils.travel.compute_fan_noise_boost`. -/
def computeFanNoiseBoost (home : Team) : ℚ :=
  BettingConfig.FAN_NOISE_BASE_EPA
    + (if isLoudStadium home then BettingConfig.FAN_NOISE_LOUD_STADIUM_BONUS_EPA else 0)
    + (if isDomeTeam home then BettingConfig.FAN_NOISE_DOME_BONUS_EPA else 0)

/-! ## EPA analyzer (src/core/epa_analyzer.py) -/

/-- The efficiency fields of the profile built by
`EPAAnalyzer.calculate_team_epa`; a play is embedded by its `epa` value. -/
structure TeamEpa where
  off_epa : ℚ
  def_epa : ℚ
  total_epa : ℚ
  off_plays : ℕ
  def_plays : ℕ
deriving DecidableEq, Repr

/-- Arithmetic mean of a list of `epa` values (`Series.mean`). -/
def listMean (l : List ℚ) : ℚ := l.sum / l.length

/-- `EPAAnalyzer.calculate_team_epa` restricted to the efficiency fields:
with an empty offensive or defensive play set it returns the all-zero
profile (and, being total, never raises). -/
def calculateTeamEpa (offense defense : List ℚ) : TeamEpa :=
  if offense.length = 0 ∨ defense.length = 0 then
    ⟨0, 0, 0, 0, 0⟩
  else
    let offEpa := listMean offense
    let defEpa := listMean defense
    ⟨offEpa, defEpa, offEpa - defEpa, offense.length, defense.length⟩

/-- `EPAAnalyzer.apply_division_rivalry`. -/
def applyDivisionRivalry (epaDiff : ℚ) (isDivisionGame : Bool) : ℚ :=
  if isDivisionGame then
    epaDiff * (1 - BettingConfig.DIVISION_RIVALRY_COMPRESSION)
  else epaDiff

/-! ## Adjustment pipeline (src/core/predictor.py `NFLPredictor.predict_game`,
lines 97-225) -/

/-- Adjustment-record keys used by `predict_game`. -/
inductive AdjKey where
  | home_field
  | altitude
  | fan_noise
  | travel_penalty
  | division_rivalry
  | rest_differential
  | injuries
  | weather
  | global_non_epa_cap_applied
deriving DecidableEq, Repr

/-- The weather dict as read through its three `.get` calls
(`temperature` default 70, `wind_speed` default 0, `precipitation`
default 0). -/
structure WeatherInput where
  temperature : ℚ
  wind_speed : ℚ
  precipitation : ℚ
deriving DecidableEq, Repr

/-- The adjustment context of one `predict_game` call.  `injuries`,
`weather` and `restDays` are `none` when the corresponding dict argument is
absent or empty (falsy in Python); the inner `Option`s model keys that may
be missing from a present dict. -/
structure GameContext where
  home : Team
  away : Team
  homeBase : ℚ
  awayBase : ℚ
  injuries : Option (Option ℚ × Option ℚ)
  weather : Option WeatherInput
  restDays : Option (Option ℤ × Option ℤ)
deriving DecidableEq, Repr

/-- Running state of the adjustment pipeline: the two adjusted efficiency
values plus the adjustment record in insertion order. -/
structure PredictionState where
  homeEpa : ℚ
  awayEpa : ℚ
  adjustments : List (AdjKey × ℚ)
deriving DecidableEq, Repr

/-- `rest_days.get('away', None) if rest_days else None`. -/
def awayRestOf (ctx : GameContext) : Option ℤ :=
  match ctx.restDays with
  | some rd => rd.2
  | none => none

/-- Home-field advantage step (predictor.py lines 106-108). -/
def homeFieldStep (s : PredictionState) : PredictionState :=
  ⟨s.homeEpa + BettingConfig.HOME_FIELD_EPA, s.awayEpa,
    s.adjustments ++ [(.home_field, BettingConfig.HOME_FIELD_EPA)]⟩

/-- Altitude step (lines 112-116). -/
def altitudeStep (home : Team) (s : PredictionState) : PredictionState :=
  if isAltitudeTeam home then
    ⟨s.homeEpa + BettingConfig.ALTITUDE_ADVANTAGE_EPA, s.awayEpa,
      s.adjustments ++ [(.altitude, BettingConfig.ALTITUDE_ADVANTAGE_EPA)]⟩
  else s

/-- Fan-noise step (lines 119-122): raw boost capped at
`CAP_FAN_NOISE_EPA`, always recorded. -/
def fanNoiseStep (home : Team) (s : PredictionState) : PredictionState :=
  let fanNoise := min (computeFanNoiseBoost home) EPAConfig.CAP_FAN_NOISE_EPA
  ⟨s.homeEpa + fanNoise, s.awayEpa, s.adjustments ++ [(.fan_noise, fanNoise)]⟩

/-- Travel step (lines 126-132): nonzero penalty floored at
`MAX_PENALTY_EPA`, added to the away side. -/
def travelStep (home away : Team) (awayRest : Option ℤ)
    (s : PredictionState) : PredictionState :=
  let travelPen := computeTravelPenalty home away awayRest
  if travelPen ≠ 0 then
    let applied :=
      if travelPen ≥ 0 then travelPen
      else max travelPen TravelConfig.MAX_PENALTY_EPA
    ⟨s.homeEpa, s.awayEpa + applied,
      s.adjustments ++ [(.travel_penalty, applied)]⟩
  else s

/-- Division-rivalry step (lines 135-143): compresses the current
differential symmetrically. -/
def divisionStep (isDivision : Bool) (s : PredictionState) : PredictionState :=
  if isDivision then
    let rawDiff := s.homeEpa - s.awayEpa
    let adjustedDiff := applyDivisionRivalry rawDiff true
    let compression := rawDiff - adjustedDiff
    ⟨s.homeEpa - compression / 2, s.awayEpa + compression / 2,
      s.adjustments ++ [(.division_rivalry, -compression)]⟩
  else s

/-- Rest-differential magnitude (lines 149-154): `rest_diff × 0.005`,
clamped to `±CAP_REST_EPA`. -/
def restAdjustment (restDiff : ℤ) : ℚ :=
  let adj := (restDiff : ℚ) * (5/1000)
  if adj > 0 then min adj EPAConfig.CAP_REST_EPA
  else max adj (-EPAConfig.CAP_REST_EPA)

/-- Rest step (lines 146-157): applied to the home side only when the rest
dict is present and the differential is nonzero. -/
def restStep (restDays : Option (Option ℤ × Option ℤ))
    (s : PredictionState) : PredictionState :=
  match restDays with
  | none => s
  | some rd =>
    let restDiff := rd.1.getD 0 - rd.2.getD 0
    if restDiff ≠ 0 then
      ⟨s.homeEpa + restAdjustment restDiff, s.awayEpa,
        s.adjustments ++ [(.rest_differential, restAdjustment restDiff)]⟩
    else s

/-- Per-team injury clamp (lines 165, 172):
`max(min(x, cap), -cap)`. -/
def clampInjury (x : ℚ) : ℚ :=
  max (min x EPAConfig.CAP_INJURY_PER_TEAM_EPA)
    (-EPAConfig.CAP_INJURY_PER_TEAM_EPA)

/-- Injury step (lines 160-177).  The `'injuries'` record entry is written
unconditionally (line 177), so it is present, possibly with value 0, even
when no injury dict was supplied. -/
def injuriesStep (injuries : Option (Option ℚ × Option ℚ))
    (s : PredictionState) : PredictionState :=
  match injuries with
  | none => ⟨s.homeEpa, s.awayEpa, s.adjustments ++ [(.injuries, 0)]⟩
  | some inj =>
    let homeImpact := match inj.1 with
      | some x => clampInjury x
      | none => 0
    let awayImpact := match inj.2 with
      | some x => clampInjury x
      | none => 0
    ⟨s.homeEpa + homeImpact, s.awayEpa + awayImpact,
      s.adjustments ++ [(.injuries, homeImpact + awayImpact)]⟩

/-- The `injury_impact` total recorded under the `'injuries'` key
(lines 160-177): zero when the injury dict is falsy, otherwise the sum of
the clamped per-team impacts that are present. -/
def injuryImpactOf (injuries : Option (Option ℚ × Option ℚ)) : ℚ :=
  match injuries with
  | none => 0
  | some inj =>
    (match inj.1 with | some x => clampInjury x | none => 0)
      + (match inj.2 with | some x => clampInjury x | none => 0)

/-- Raw weather impact accumulated from the three condition checks
(lines 187-196). -/
def weatherImpactRaw (w : WeatherInput) : ℚ :=
  (if w.temperature < 32 then -(10/1000 : ℚ) else 0)
    + (if w.wind_speed > 15 then -(15/1000 : ℚ) else 0)
    + (if w.precipitation > 0 then -(10/1000 : ℚ) else 0)

/-- Weather step (lines 180-207): nonzero impact clamped to
`±CAP_WEATHER_EPA`, then split evenly across both sides. -/
def weatherStep (weather : Option WeatherInput)
    (s : PredictionState) : PredictionState :=
  match weather with
  | none => s
  | some w =>
    let wi := weatherImpactRaw w
    if wi ≠ 0 then
      let wi := if wi > 0 then min wi EPAConfig.CAP_WEATHER_EPA
        else max wi (-EPAConfig.CAP_WEATHER_EPA)
      ⟨s.homeEpa + wi / 2, s.awayEpa + wi / 2,
        s.adjustments ++ [(.weather, wi)]⟩
    else s

/-- All individual adjustments of `predict_game` in source order, starting
from the combined base efficiencies. -/
def runAdjustments (ctx : GameContext) : PredictionState :=
  weatherStep ctx.weather <|
    injuriesStep ctx.injuries <|
      restStep ctx.restDays <|
        divisionStep (areDivisionRivals ctx.home ctx.away) <|
          travelStep ctx.home ctx.away (awayRestOf ctx) <|
            fanNoiseStep ctx.home <|
              altitudeStep ctx.home <|
                homeFieldStep ⟨ctx.homeBase, ctx.awayBase, []⟩

/-- `base_epa_diff` (line 101). -/
def baseDiff (ctx : GameContext) : ℚ := ctx.homeBase - ctx.awayBase

/-- `raw_epa_differential` (line 210). -/
def rawDiff (ctx : GameContext) : ℚ :=
  (runAdjustments ctx).homeEpa - (runAdjustments ctx).awayEpa

/-- The EPA-dominant global cap (lines 213-225): returns the final
differential and the recorded clamp amount. -/
def applyGlobalCap (base raw : ℚ) : ℚ × ℚ :=
  let nonEpaEffect := raw - base
  let cap := EPAConfig.GLOBAL_NON_EPA_CAP
  if |nonEpaEffect| > cap then
    let clampedEffect := if nonEpaEffect > 0 then cap else -cap
    (base + clampedEffect, nonEpaEffect - clampedEffect)
  else (raw, 0)

/-- Final differential plus complete adjustment record of one
`predict_game` call (lines 97-225). -/
def predictDifferential (ctx : GameContext) : ℚ × List (AdjKey × ℚ) :=
  let s := runAdjustments ctx
  let raw := s.homeEpa - s.awayEpa
  if EPAConfig.EPA_DOMINANT_MODE then
    let capped := applyGlobalCap (baseDiff ctx) raw
    (capped.1, s.adjustments ++ [(.global_non_epa_cap_applied, capped.2)])
  else (raw, s.adjustments)

/-! ## Outcome projection (predictor.py lines 227-233) -/

/-- `predicted_spread = epa_differential / 0.04`. -/
def predictedSpread (epaDifferential : ℚ) : ℚ :=
  epaDifferential / (4/100)

/-- `win_probability = 1 / (1 + exp(-0.25 * predicted_spread))`. -/
noncomputable def winProbability (spread : ℝ) : ℝ :=
  1 / (1 + Real.exp (-(25/100) * spread))

/-- Win probability as a function of the efficiency differential. -/
noncomputable def winProbOfDiff (epaDifferential : ℚ) : ℝ :=
  winProbability ((predictedSpread epaDifferential : ℚ) : ℝ)

/-! ## Helper lemmas -/

theorem injuriesStep_adjustments (injuries : Option (Option ℚ × Option ℚ))
    (s : PredictionState) :
    (injuriesStep injuries s).adjustments =
      s.adjustments ++ [(.injuries, injuryImpactOf injuries)] := by
  cases injuries with
  | none => rfl
  | some inj => rfl

theorem mem_weatherStep_of_mem (weather : Option WeatherInput)
    (s : PredictionState) (x : AdjKey × ℚ) (hx : x ∈ s.adjustments) :
    x ∈ (weatherStep weather s).adjustments := by
  cases weather with
  | none => exact hx
  | some w =>
    simp only [weatherStep]
    split
    · simpa using Or.inl hx
    · exact hx

theorem mem_weatherStep (weather : Option WeatherInput) (s : PredictionState)
    (x : AdjKey × ℚ) (hx : x ∈ (weatherStep weather s).adjustments) :
    x ∈ s.adjustments ∨ x.1 = .weather := by
  cases weather with
  | none => exact Or.inl hx
  | some w =>
    simp only [weatherStep] at hx
    split at hx
    · rcases List.mem_append.mp hx with h | h
      · exact Or.inl h
      · right
        simp only [List.mem_singleton] at h
        simp [h]
    · exact Or.inl hx

theorem mem_injuriesStep (injuries : Option (Option ℚ × Option ℚ))
    (s : PredictionState) (x : AdjKey × ℚ)
    (hx : x ∈ (injuriesStep injuries s).adjustments) :
    x ∈ s.adjustments ∨ x.1 = .injuries := by
  rw [injuriesStep_adjustments] at hx
  rcases List.mem_append.mp hx with h | h
  · exact Or.inl h
  · right
    simp only [List.mem_singleton] at h
    simp [h]

theorem mem_restStep (restDays : Option (Option ℤ × Option ℤ))
    (s : PredictionState) (x : AdjKey × ℚ)
    (hx : x ∈ (restStep restDays s).adjustments) :
    x ∈ s.adjustments ∨ x.1 = .rest_differential := by
  cases restDays with
  | none => exact Or.inl hx
  | some rd =>
    simp only [restStep] at hx
    split at hx
    · rcases List.mem_append.mp hx with h | h
      · exact Or.inl h
      · right
        simp only [List.mem_singleton] at h
        simp [h]
    · exact Or.inl hx

theorem mem_divisionStep (isDivision : Bool) (s : PredictionState)
    (x : AdjKey × ℚ) (hx : x ∈ (divisionStep isDivision s).adjustments) :
    x ∈ s.adjustments ∨ x.1 = .division_rivalry := by
  cases isDivision with
  | false => exact Or.inl hx
  | true =>
    simp only [divisionStep, if_true] at hx
    rcases List.mem_append.mp hx with h | h
    · exact Or.inl h
    · right
      simp only [List.mem_singleton] at h
      simp [h]

theorem mem_travelStep (home away : Team) (awayRest : Option ℤ)
    (s : PredictionState) (x : AdjKey × ℚ)
    (hx : x ∈ (travelStep home away awayRest s).adjustments) :
    x ∈ s.adjustments ∨ x.1 = .travel_penalty := by
  simp only [travelStep] at hx
  split at hx
  · rcases List.mem_append.mp hx with h | h
    · exact Or.inl h
    · right
      simp only [List.mem_singleton] at h
      simp [h]
  · exact Or.inl hx

theorem mem_fanNoiseStep (home : Team) (s : PredictionState)
    (x : AdjKey × ℚ) (hx : x ∈ (fanNoiseStep home s).adjustments) :
    x ∈ s.adjustments ∨ x.1 = .fan_noise := by
  simp only [fanNoiseStep] at hx
  rcases List.mem_append.mp hx with h | h
  · exact Or.inl h
  · right
    simp only [List.mem_singleton] at h
    simp [h]

theorem mem_altitudeStep (home : Team) (s : PredictionState)
    (x : AdjKey × ℚ) (hx : x ∈ (altitudeStep home s).adjustments) :
    x ∈ s.adjustments ∨ x.1 = .altitude := by
  simp only [altitudeStep] at hx
  split at hx
  · rcases List.mem_append.mp hx with h | h
    · exact Or.inl h
    · right
      simp only [List.mem_singleton] at h
      simp [h]
  · exact Or.inl hx

theorem mem_homeFieldStep (s : PredictionState) (x : AdjKey × ℚ)
    (hx : x ∈ (homeFieldStep s).adjustments) :
    x ∈ s.adjustments ∨ x.1 = .home_field := by
  simp only [homeFieldStep] at hx
  rcases List.mem_append.mp hx with h | h
  · exact Or.inl h
  · right
    simp only [List.mem_singleton] at h
    simp [h]

theorem predictDifferential_eq (ctx : GameContext) :
    predictDifferential ctx =
      ((applyGlobalCap (baseDiff ctx) (rawDiff ctx)).1,
        (runAdjustments ctx).adjustments ++
          [(.global_non_epa_cap_applied,
            (applyGlobalCap (baseDiff ctx) (rawDiff ctx)).2)]) := rfl

/-! ## Claim theorems -/

/-- Claim C8: for every team whose offensive or defensive play set is
empty, `calculate_team_epa` returns a profile whose efficiency fields and
play counts are all zero; the function is total, so no exception is
raised. -/
theorem zero_plays_zero_profile (offense defense : List ℚ)
    (h : offense = [] ∨ defense = []) :
    calculateTeamEpa offense defense = ⟨0, 0, 0, 0, 0⟩ := by
  rcases h with h | h <;> simp [calculateTeamEpa, h]

/-- Witness for C8: a concrete team with no offensive plays yields the
all-zero profile. -/
theorem zero_plays_zero_profile_witness :
    (([] : List ℚ) = [] ∨ [(1 : ℚ)] = []) ∧
      calculateTeamEpa [] [(1 : ℚ)] = ⟨0, 0, 0, 0, 0⟩ :=
  ⟨Or.inl rfl, zero_plays_zero_profile [] [(1 : ℚ)] (Or.inl rfl)⟩

/-- Claim C10: the division-rivalry step preserves the sum of the home and
away adjusted efficiency values, multiplies the current home-minus-away
differential by exactly `1 - 0.18`, and leaves both values unchanged when
the game is not a division game. -/
theorem division_rivalry_symmetric (s : PredictionState) :
    (divisionStep true s).homeEpa + (divisionStep true s).awayEpa =
        s.homeEpa + s.awayEpa ∧
      (divisionStep true s).homeEpa - (divisionStep true s).awayEpa =
        (s.homeEpa - s.awayEpa) * (1 - 18/100) ∧
      divisionStep false s = s := by
  refine ⟨?_, ?_, rfl⟩ <;>
    simp only [divisionStep, applyDivisionRivalry,
      BettingConfig.DIVISION_RIVALRY_COMPRESSION, if_true] <;>
    ring

/-- Claim C2, counterexample: the `fractional_kelly_pct` returned by
`KellyCalculator.calculate_bet_size` (one of the claim's sources) exceeds
`MAX_BET_SIZE_PCT` at win probability 0.9, odds -110, with the default
quarter-Kelly fraction: it equals 0.1975 > 0.05, so the claimed universal
bound fails on that routine. -/
theorem kelly_fraction_uncapped_path :
    fractionalKellyPct (9/10) (-110) BettingConfig.KELLY_FRACTION = 79/400 ∧
      BettingConfig.MAX_BET_SIZE_PCT <
        fractionalKellyPct (9/10) (-110) BettingConfig.KELLY_FRACTION := by
  constructor <;>
    norm_num [fractionalKellyPct, fullKelly, americanToDecimal,
      BettingConfig.KELLY_FRACTION, BettingConfig.MAX_BET_SIZE_PCT]

/-- Claim C2, amended: the fraction returned by
`BettingSignalGenerator._calculate_kelly` is between 0 and
`MAX_BET_SIZE_PCT` for all inputs (win probability, odds, edge, market
spread, reduction factor); `KellyCalculator.calculate_bet_size` only floors
its fraction at 0 and does not apply the maximum-bet cap. -/
theorem kelly_fraction_bounds :
    (∀ (p : ℚ) (odds : ℤ) (e ms r : ℚ),
        0 ≤ calculateKelly p odds e ms r ∧
          calculateKelly p odds e ms r ≤ BettingConfig.MAX_BET_SIZE_PCT) ∧
      ∀ (p : ℚ) (odds : ℤ),
        0 ≤ fractionalKellyPct p odds BettingConfig.KELLY_FRACTION := by
  constructor
  · intro p odds e ms r
    constructor
    · exact le_max_left 0 _
    · refine max_le ?_ (min_le_right _ _)
      norm_num [BettingConfig.MAX_BET_SIZE_PCT]
  · intro p odds
    have h1 : 0 ≤ fullKelly p odds := le_max_left 0 _
    have h2 : (0 : ℚ) ≤ BettingConfig.KELLY_FRACTION := by
      norm_num [BettingConfig.KELLY_FRACTION]
    exact mul_nonneg h1 h2

/-- Claim C6: for every valid American odds value, converting to decimal
odds and taking the reciprocal matches the closed-form implied-probability
function (exact over `ℚ`). -/
theorem odds_roundtrip_implied_prob (odds : ℤ)
    (h : odds ≤ -100 ∨ 100 ≤ odds) :
    1 / americanToDecimal odds = calculateImpliedProb odds := by
  rcases h with h | h
  · have hneg : ¬odds > 0 := by omega
    have hq : (odds : ℚ) < 0 := by exact_mod_cast (by omega : odds < 0)
    simp only [americanToDecimal, calculateImpliedProb, if_neg hneg,
      abs_of_neg hq]
    have hne : -(odds : ℚ) ≠ 0 := by linarith
    have ho : (odds : ℚ) ≠ 0 := ne_of_lt hq
    rw [show 100 / -(odds : ℚ) + 1 = (100 + -(odds : ℚ)) / -(odds : ℚ) by
      field_simp]
    rw [one_div_div, add_comm (100 : ℚ) (-(odds : ℚ))]
  · have hpos : odds > 0 := by omega
    have hq : (0 : ℚ) < (odds : ℚ) := by exact_mod_cast hpos
    simp only [americanToDecimal, calculateImpliedProb, if_pos hpos]
    rw [show (odds : ℚ) / 100 + 1 = ((odds : ℚ) + 100) / 100 by field_simp]
    rw [one_div_div]

/-- Witness for C6: at odds -110 both sides equal 11/21. -/
theorem odds_roundtrip_implied_prob_witness :
    ((-110 : ℤ) ≤ -100 ∨ (100 : ℤ) ≤ -110) ∧
      1 / americanToDecimal (-110) = calculateImpliedProb (-110) :=
  ⟨Or.inl (by norm_num),
    odds_roundtrip_implied_prob (-110) (Or.inl (by norm_num))⟩

/-- Claim C5: the rest-differential adjustment applied to the home side
equals `(home_rest - away_rest) * 0.005` clamped symmetrically to
`±CAP_REST_EPA`; for home rest 13 and away rest 6 it is exactly 0.035, at
the cap boundary; and whenever the rest dict with both keys is supplied and
the differential is nonzero, exactly that value is recorded in the
adjustment record. -/
theorem rest_adjustment_clamped :
    (∀ d : ℤ, restAdjustment d =
        max (-EPAConfig.CAP_REST_EPA)
          (min ((d : ℚ) * (5/1000)) EPAConfig.CAP_REST_EPA)) ∧
      restAdjustment (13 - 6) = 35/1000 ∧
      EPAConfig.CAP_REST_EPA = 35/1000 ∧
      ∀ (ctx : GameContext) (h a : ℤ),
        ctx.restDays = some (some h, some a) → h - a ≠ 0 →
          (AdjKey.rest_differential, restAdjustment (h - a)) ∈
            (predictDifferential ctx).2 := by
  refine ⟨?_, by norm_num [restAdjustment, EPAConfig.CAP_REST_EPA],
    rfl, ?_⟩
  · intro d
    simp only [restAdjustment, EPAConfig.CAP_REST_EPA]
    split_ifs with hpos
    · rw [max_eq_right]
      exact le_min (by linarith) (by norm_num)
    · rw [min_eq_left (by linarith), max_comm]
  · intro ctx h a hrd hne
    rw [predictDifferential_eq]
    apply List.mem_append_left
    simp only [runAdjustments]
    apply mem_weatherStep_of_mem
    rw [injuriesStep_adjustments]
    apply List.mem_append_left
    rw [hrd]
    simp only [restStep, Option.getD_some]
    rw [if_pos hne]
    exact List.mem_append_right _ (List.mem_singleton.mpr rfl)

/-- Witness for C5: the home-rest-13/away-rest-6 context records exactly
the cap value 0.035. -/
theorem rest_adjustment_clamped_witness :
    ((⟨.KC, .BUF, 0, 0, none, none, some (some 13, some 6)⟩ :
        GameContext).restDays = some (some 13, some 6)) ∧
      ((13 : ℤ) - 6 ≠ 0) ∧
      (AdjKey.rest_differential, restAdjustment (13 - 6)) ∈
        (predictDifferential
          ⟨.KC, .BUF, 0, 0, none, none, some (some 13, some 6)⟩).2 :=
  ⟨rfl, by norm_num,
    rest_adjustment_clamped.2.2.2 _ 13 6 rfl (by norm_num)⟩

/-- Claim C3: `_determine_signal` returns STRONG_BET exactly when
edge ≥ 4.0×mult with confidence HIGH, or edge ≥ 3.0×mult with confidence
HIGH or MEDIUM (mult = 1.2 if playoff else 1.0); and for market spread 3.0,
model spread 7.0, confidence HIGH, not playoff, the edge is exactly 4.0 and
the signal is STRONG_BET. -/
theorem strong_bet_characterization :
    (∀ (e : ℚ) (conf : Confidence) (ms : ℚ) (p : Bool),
        determineSignal e conf ms p = .STRONG_BET ↔
          (e ≥ 4 * (if p then (12/10 : ℚ) else 1) ∧ conf = .HIGH) ∨
            (e ≥ 3 * (if p then (12/10 : ℚ) else 1) ∧
              (conf = .HIGH ∨ conf = .MEDIUM))) ∧
      edgePoints 7 3 = 4 ∧
      determineSignal (edgePoints 7 3) .HIGH 3 false = .STRONG_BET := by
  refine ⟨?_, by norm_num [edgePoints], ?_⟩
  · intro e conf ms p
    simp only [determineSignal]
    set m := (if p = true then (12/10 : ℚ) else 1) with hmdef
    have hm : (0 : ℚ) < m := by
      rw [hmdef]
      cases p <;> norm_num
    split_ifs with h1 h2 h3 h4 h5
    · exact ⟨fun _ => Or.inl h1, fun _ => rfl⟩
    · exact ⟨fun _ => Or.inr h2, fun _ => rfl⟩
    all_goals
      rw [false_iff]
      rintro (⟨ha, hc⟩ | ⟨ha, hc⟩)
      · exact h2 ⟨by linarith, Or.inl hc⟩
      · exact h2 ⟨ha, hc⟩
  · have he : edgePoints 7 3 = 4 := by norm_num [edgePoints]
    rw [he]
    simp only [determineSignal]
    norm_num

/-- Claim C7: the projection from efficiency differential to win
probability (spread = differential / 0.04, then logistic
`1/(1+exp(-0.25*spread))`) is monotone. -/
theorem win_probability_monotone (d1 d2 : ℚ) (h : d1 ≤ d2) :
    winProbOfDiff d1 ≤ winProbOfDiff d2 := by
  unfold winProbOfDiff winProbability
  have hs : ((predictedSpread d1 : ℚ) : ℝ) ≤ ((predictedSpread d2 : ℚ) : ℝ) := by
    have hq : predictedSpread d1 ≤ predictedSpread d2 := by
      unfold predictedSpread
      gcongr
    exact_mod_cast hq
  have hexp : Real.exp (-(25/100) * ((predictedSpread d2 : ℚ) : ℝ)) ≤
      Real.exp (-(25/100) * ((predictedSpread d1 : ℚ) : ℝ)) := by
    apply Real.exp_le_exp.mpr
    linarith
  have hpos : (0 : ℝ) <
      1 + Real.exp (-(25/100) * ((predictedSpread d2 : ℚ) : ℝ)) := by
    positivity
  exact one_div_le_one_div_of_le hpos (by linarith)

/-- Witness for C7: monotonicity at the concrete pair 0 ≤ 1. -/
theorem win_probability_monotone_witness :
    ((0 : ℚ) ≤ 1) ∧ winProbOfDiff 0 ≤ winProbOfDiff 1 :=
  ⟨by norm_num, win_probability_monotone 0 1 (by norm_num)⟩

/-- Claim C4, counterexample: at market spread 3.2 and edge 0.4 the code's
key-number check returns true although the claim's interval
`[market_spread, market_spread + edge_points]` = [3.2, 3.6] (and its
mirror) contains neither 3 nor 7, so the claimed "exactly when" fails. -/
theorem crosses_key_number_interval_mismatch :
    crossesKeyNumber (16/5) (2/5) = true ∧
      specIntervalCrossesKeyNumber (16/5) (2/5) = false := by
  constructor <;>
    norm_num [crossesKeyNumber, specIntervalCrossesKeyNumber,
      BettingConfig.KEY_NUMBERS, abs_of_nonneg]

/-- Claim C4, amended: the key-number crossing check returns true exactly
when the two-sided interval `[|market_spread| - edge, |market_spread| +
edge]` contains 3 or 7 (the code also fires when a key number lies up to
`edge_points` below the absolute market spread); with market spread 3.2
and edge 0.4 it returns true; and whenever it returns true the fractional
Kelly stake is multiplied by the key-number reduction factor before the
maximum-bet cap and floor are applied. -/
theorem crosses_key_number_characterization :
    (∀ ms e : ℚ, 0 ≤ e →
        (crossesKeyNumber ms e = true ↔
          (|ms| - e ≤ 3 ∧ 3 ≤ |ms| + e) ∨ (|ms| - e ≤ 7 ∧ 7 ≤ |ms| + e))) ∧
      crossesKeyNumber (16/5) (2/5) = true ∧
      ∀ (p : ℚ) (odds : ℤ) (e ms r : ℚ),
        crossesKeyNumber ms e = true →
          calculateKelly p odds e ms r =
            max 0 (min (signalKellyRaw p odds * BettingConfig.KELLY_FRACTION * r)
              BettingConfig.MAX_BET_SIZE_PCT) := by
  refine ⟨?_, by norm_num [crossesKeyNumber, BettingConfig.KEY_NUMBERS, abs_of_nonneg], ?_⟩
  · intro ms e he
    simp only [crossesKeyNumber, BettingConfig.KEY_NUMBERS, List.take,
      List.any_cons, List.any_nil, Bool.or_false, Bool.or_eq_true,
      Bool.and_eq_true, decide_eq_true_eq, ge_iff_le]
    constructor
    · rintro ((⟨h1, h2⟩ | ⟨h1, h2⟩) | (⟨h1, h2⟩ | ⟨h1, h2⟩))
      · exact Or.inl ⟨by linarith, h2⟩
      · exact Or.inl ⟨by linarith, by linarith⟩
      · exact Or.inr ⟨by linarith, h2⟩
      · exact Or.inr ⟨by linarith, by linarith⟩
    · rintro (⟨h1, h2⟩ | ⟨h1, h2⟩)
      · by_cases hm : |ms| ≤ 3
        · exact Or.inl (Or.inl ⟨hm, h2⟩)
        · exact Or.inl (Or.inr ⟨by linarith, by linarith⟩)
      · by_cases hm : |ms| ≤ 7
        · exact Or.inr (Or.inl ⟨hm, h2⟩)
        · exact Or.inr (Or.inr ⟨by linarith, by linarith⟩)
  · intro p odds e ms r hcross
    simp [calculateKelly, hcross]

/-- Witness for C4 (amended): the characterization and the Kelly reduction
evaluated at market spread 3.2, edge 0.4. -/
theorem crosses_key_number_characterization_witness :
    ((0 : ℚ) ≤ 2/5) ∧
      (crossesKeyNumber (16/5) (2/5) = true ↔
        ((|(16/5 : ℚ)| - 2/5 ≤ 3 ∧ 3 ≤ |(16/5 : ℚ)| + 2/5) ∨
          (|(16/5 : ℚ)| - 2/5 ≤ 7 ∧ 7 ≤ |(16/5 : ℚ)| + 2/5))) ∧
      calculateKelly (11/20) (-110) (2/5) (16/5) (1/2) =
        max 0 (min (signalKellyRaw (11/20) (-110) *
          BettingConfig.KELLY_FRACTION * (1/2))
          BettingConfig.MAX_BET_SIZE_PCT) :=
  ⟨by norm_num,
    crosses_key_number_characterization.1 (16/5) (2/5) (by norm_num),
    crosses_key_number_characterization.2.2 (11/20) (-110) (2/5) (16/5)
      (1/2) (by norm_num [crossesKeyNumber, BettingConfig.KEY_NUMBERS,
        abs_of_nonneg])⟩

theorem injuriesStep_none_eq (s : PredictionState) :
    injuriesStep none s = injuriesStep (some (none, none)) s := by
  simp [injuriesStep]

theorem weatherStep_none_eq (s : PredictionState) :
    weatherStep none s = weatherStep (some ⟨70, 0, 0⟩) s := by
  norm_num [weatherStep, weatherImpactRaw]

theorem applyGlobalCap_spec (base raw : ℚ) :
    |(applyGlobalCap base raw).1 - base| ≤ EPAConfig.GLOBAL_NON_EPA_CAP ∧
      (EPAConfig.GLOBAL_NON_EPA_CAP < |raw - base| →
        (applyGlobalCap base raw).1 - base =
            (if raw - base > 0 then EPAConfig.GLOBAL_NON_EPA_CAP
              else -EPAConfig.GLOBAL_NON_EPA_CAP) ∧
          (applyGlobalCap base raw).2 =
            raw - base -
              (if raw - base > 0 then EPAConfig.GLOBAL_NON_EPA_CAP
                else -EPAConfig.GLOBAL_NON_EPA_CAP)) := by
  simp only [applyGlobalCap]
  split_ifs with h1 h2 h3
  · refine ⟨?_, fun _ => ⟨by ring, by ring⟩⟩
    rw [add_sub_cancel_left]
    norm_num [EPAConfig.GLOBAL_NON_EPA_CAP, abs_of_nonneg]
  · refine ⟨?_, fun _ => ⟨by ring, by ring⟩⟩
    rw [add_sub_cancel_left, abs_neg]
    norm_num [EPAConfig.GLOBAL_NON_EPA_CAP, abs_of_nonneg]
  · exact ⟨not_lt.mp h1, fun hcontra => absurd hcontra h1⟩
  · exact ⟨not_lt.mp h1, fun hcontra => absurd hcontra h1⟩

/-- Claim C9, counterexample: in a context with no injury input the
`'injuries'` key is still recorded, with value 0, in the adjustment
record (line 177 of predictor.py runs outside the `if injuries:` block),
contradicting the claim that absent-source adjustment keys are omitted. -/
theorem injuries_key_recorded_when_absent :
    ((⟨.KC, .PHI, 1/10, 1/20, none, none, none⟩ : GameContext).injuries =
        none) ∧
      (AdjKey.injuries, 0) ∈
        (predictDifferential
          ⟨.KC, .PHI, 1/10, 1/20, none, none, none⟩).2 := by
  refine ⟨rfl, ?_⟩
  rw [predictDifferential_eq]
  apply List.mem_append_left
  simp only [runAdjustments]
  apply mem_weatherStep_of_mem
  rw [injuriesStep_adjustments]
  exact List.mem_append_right _ (List.mem_singleton.mpr rfl)

/-- Claim C9, amended: an adjustment whose source data is absent
contributes zero to the efficiency values (the result equals the one for a
present-but-neutral input); the weather key is omitted from the record when
the weather input is absent, but the injuries key is always recorded (with
value 0 when no injury input is given); and the global-cap-applied entry is
always present since EPA-dominant mode is enabled. -/
theorem absent_source_adjustments (ctx : GameContext) :
    (ctx.weather = none → ∀ v : ℚ,
        (AdjKey.weather, v) ∉ (predictDifferential ctx).2) ∧
      (AdjKey.injuries, injuryImpactOf ctx.injuries) ∈
        (predictDifferential ctx).2 ∧
      injuryImpactOf none = 0 ∧
      (∃ v : ℚ, (AdjKey.global_non_epa_cap_applied, v) ∈
        (predictDifferential ctx).2) ∧
      (∀ (home away : Team) (hb ab : ℚ) (w : Option WeatherInput)
          (rd : Option (Option ℤ × Option ℤ)),
        runAdjustments ⟨home, away, hb, ab, none, w, rd⟩ =
          runAdjustments ⟨home, away, hb, ab, some (none, none), w, rd⟩) ∧
      ∀ (home away : Team) (hb ab : ℚ) (inj : Option (Option ℚ × Option ℚ))
          (rd : Option (Option ℤ × Option ℤ)),
        runAdjustments ⟨home, away, hb, ab, inj, none, rd⟩ =
          runAdjustments ⟨home, away, hb, ab, inj, some ⟨70, 0, 0⟩, rd⟩ := by
  refine ⟨?_, ?_, rfl, ?_, ?_, ?_⟩
  · intro hw v hmem
    rw [predictDifferential_eq] at hmem
    rcases List.mem_append.mp hmem with hmem | hmem
    · simp only [runAdjustments, hw] at hmem
      rw [show weatherStep none = id from rfl, id_eq] at hmem
      rcases mem_injuriesStep _ _ _ hmem with hmem | hk
      · rcases mem_restStep _ _ _ hmem with hmem | hk
        · rcases mem_divisionStep _ _ _ hmem with hmem | hk
          · rcases mem_travelStep _ _ _ _ _ hmem with hmem | hk
            · rcases mem_fanNoiseStep _ _ _ hmem with hmem | hk
              · rcases mem_altitudeStep _ _ _ hmem with hmem | hk
                · rcases mem_homeFieldStep _ _ hmem with hmem | hk
                  · simp at hmem
                  · simp at hk
                · simp at hk
              · simp at hk
            · simp at hk
          · simp at hk
        · simp at hk
      · simp at hk
    · simp at hmem
  · rw [predictDifferential_eq]
    apply List.mem_append_left
    simp only [runAdjustments]
    apply mem_weatherStep_of_mem
    rw [injuriesStep_adjustments]
    exact List.mem_append_right _ (List.mem_singleton.mpr rfl)
  · refine ⟨(applyGlobalCap (baseDiff ctx) (rawDiff ctx)).2, ?_⟩
    rw [predictDifferential_eq]
    exact List.mem_append_right _ (List.mem_singleton.mpr rfl)
  · intro home away hb ab w rd
    simp only [runAdjustments, awayRestOf]
    rw [injuriesStep_none_eq]
  · intro home away hb ab inj rd
    simp only [runAdjustments, awayRestOf]
    rw [weatherStep_none_eq]

/-- Witness for C9 (amended): the absent-weather, absent-injury context has
no weather key, records the injuries key with value 0, and records the
global-cap key. -/
theorem absent_source_adjustments_witness :
    ((⟨.SF, .MIA, 0, 0, none, none, none⟩ : GameContext).weather = none) ∧
      (∀ v : ℚ, (AdjKey.weather, v) ∉
        (predictDifferential ⟨.SF, .MIA, 0, 0, none, none, none⟩).2) ∧
      (AdjKey.injuries, injuryImpactOf none) ∈
        (predictDifferential ⟨.SF, .MIA, 0, 0, none, none, none⟩).2 :=
  ⟨rfl, (absent_source_adjustments _).1 rfl,
    (absent_source_adjustments
      ⟨.SF, .MIA, 0, 0, none, none, none⟩).2.1⟩

/-- Claim C1: with EPA-dominant mode enabled, the final efficiency
differential of every prediction is within `GLOBAL_NON_EPA_CAP` of the
baseline differential; when the raw non-baseline effect exceeds the cap,
the final differential is clamped so the non-baseline effect equals exactly
the sign-preserving cap, and the clamp amount is recorded under the
reserved key. -/
theorem predict_global_cap_bound (ctx : GameContext) :
    |(predictDifferential ctx).1 - baseDiff ctx| ≤
        EPAConfig.GLOBAL_NON_EPA_CAP ∧
      (EPAConfig.GLOBAL_NON_EPA_CAP < |rawDiff ctx - baseDiff ctx| →
        (predictDifferential ctx).1 - baseDiff ctx =
            (if rawDiff ctx - baseDiff ctx > 0 then EPAConfig.GLOBAL_NON_EPA_CAP
              else -EPAConfig.GLOBAL_NON_EPA_CAP) ∧
          (AdjKey.global_non_epa_cap_applied,
              rawDiff ctx - baseDiff ctx -
                (if rawDiff ctx - baseDiff ctx > 0 then
                    EPAConfig.GLOBAL_NON_EPA_CAP
                  else -EPAConfig.GLOBAL_NON_EPA_CAP)) ∈
            (predictDifferential ctx).2) := by
  have h := applyGlobalCap_spec (baseDiff ctx) (rawDiff ctx)
  rw [predictDifferential_eq]
  refine ⟨h.1, fun hc => ⟨(h.2 hc).1, ?_⟩⟩
  rw [← (h.2 hc).2]
  exact List.mem_append_right _ (List.mem_singleton.mpr rfl)

/-- Witness for C1: hosting Denver against Buffalo with zero baselines
produces a raw non-baseline effect of 0.063 > 0.060, so the clamp fires
and 0.003 is recorded. -/
theorem predict_global_cap_bound_witness :
    EPAConfig.GLOBAL_NON_EPA_CAP <
        |rawDiff ⟨.DEN, .BUF, 0, 0, none, none, none⟩ -
          baseDiff ⟨.DEN, .BUF, 0, 0, none, none, none⟩| ∧
      ((predictDifferential ⟨.DEN, .BUF, 0, 0, none, none, none⟩).1 -
            baseDiff ⟨.DEN, .BUF, 0, 0, none, none, none⟩ =
          (if rawDiff ⟨.DEN, .BUF, 0, 0, none, none, none⟩ -
                baseDiff ⟨.DEN, .BUF, 0, 0, none, none, none⟩ > 0 then
              EPAConfig.GLOBAL_NON_EPA_CAP
            else -EPAConfig.GLOBAL_NON_EPA_CAP) ∧
        (AdjKey.global_non_epa_cap_applied,
            rawDiff ⟨.DEN, .BUF, 0, 0, none, none, none⟩ -
              baseDiff ⟨.DEN, .BUF, 0, 0, none, none, none⟩ -
              (if rawDiff ⟨.DEN, .BUF, 0, 0, none, none, none⟩ -
                    baseDiff ⟨.DEN, .BUF, 0, 0, none, none, none⟩ > 0 then
                  EPAConfig.GLOBAL_NON_EPA_CAP
                else -EPAConfig.GLOBAL_NON_EPA_CAP)) ∈
          (predictDifferential ⟨.DEN, .BUF, 0, 0, none, none, none⟩).2) := by
  have hr : rawDiff ⟨.DEN, .BUF, 0, 0, none, none, none⟩ = 63/1000 := by
    simp only [rawDiff, runAdjustments, weatherStep, injuriesStep, restStep,
      divisionStep, travelStep, fanNoiseStep, altitudeStep, homeFieldStep,
      areDivisionRivals, divisionOf, isAltitudeTeam, computeFanNoiseBoost,
      isLoudStadium, isDomeTeam, computeTravelPenalty, timezoneDiff,
      teamTimeZone, tzOrder, awayRestOf, applyDivisionRivalry,
      TravelConfig.TZ_DIFF_PENALTY, TravelConfig.MAX_PENALTY_EPA,
      EPAConfig.CAP_FAN_NOISE_EPA, BettingConfig.DIVISION_RIVALRY_COMPRESSION,
      BettingConfig.HOME_FIELD_EPA, BettingConfig.ALTITUDE_ADVANTAGE_EPA,
      BettingConfig.FAN_NOISE_BASE_EPA,
      BettingConfig.FAN_NOISE_LOUD_STADIUM_BONUS_EPA,
      BettingConfig.FAN_NOISE_DOME_BONUS_EPA]
    simp
    norm_num
  have hb : baseDiff ⟨.DEN, .BUF, 0, 0, none, none, none⟩ = 0 := by
    norm_num [baseDiff]
  have hlt : EPAConfig.GLOBAL_NON_EPA_CAP <
      |rawDiff ⟨.DEN, .BUF, 0, 0, none, none, none⟩ -
        baseDiff ⟨.DEN, .BUF, 0, 0, none, none, none⟩| := by
    rw [hr, hb]
    norm_num [EPAConfig.GLOBAL_NON_EPA_CAP, abs_of_nonneg]
  exact ⟨hlt, (predict_global_cap_bound _).2 hlt⟩

end NFLPredictor
